import Mathlib

/-!
Shallow embedding of the filter REST resource layer
(formsflow_api/resources/filter.py) and proofs of its specified
properties.

The file under verification is HTTP glue: each handler checks the
caller's role, delegates to an external FilterService and FilterSchema,
and maps results and exceptions to HTTP responses.  The collaborators
(auth.has_role, filter_schema.load / filter_schema.dump, and the six
FilterService operations) are modelled as an explicit environment of
fallible functions; each Python handler body becomes a Lean function
from that environment to a handler result recording the HTTP outcome,
the warnings logged, and the collaborator calls made.  The auth.require
decorator (authentication, 401) runs before every handler body and is
outside the scope of these claims.
-/

/-- JSON-like values, as exchanged with the request, the schema and the
service.  The resource layer treats payloads and service results
opaquely, so an untyped value model is faithful. -/
inductive Json where
  | null
  | bool (b : Bool)
  | num (n : Int)
  | str (s : String)
  | arr (elems : List Json)
  | obj (members : List (String × Json))
deriving Repr

/-- Exceptions the handlers can observe.  PermissionError,
BusinessException and marshmallow ValidationError are the kinds the
source distinguishes by except clauses; `other true` stands for any
further subclass of Exception, `other false` for an exception deriving
only from BaseException (e.g. KeyboardInterrupt), which an
`except Exception` clause does not catch but `except BaseException`
does. -/
inductive Exc where
  | permissionError
  | businessException (error : Json) (status_code : Nat)
  | validationError (detail : String)
  | other (isExceptionSubclass : Bool)
deriving Repr

/-- Whether the exception is an instance of Python's Exception class
(every modelled exception except BaseException-only ones). -/
def Exc.isException : Exc → Bool
  | .other b => b
  | _ => true

def HTTPStatus.OK : Nat := 200

def HTTPStatus.CREATED : Nat := 201

def HTTPStatus.FORBIDDEN : Nat := 403

def HTTPStatus.BAD_REQUEST : Nat := 400

/-- http.client.BAD_REQUEST, used by the POST handler. -/
def BAD_REQUEST : Nat := 400

/-- The body returned when the caller lacks the reviewer role:
a dict with type "Authorization error" and message "Permission denied". -/
def authorizationErrorBody : Json :=
  .obj [("type", .str "Authorization error"), ("message", .str "Permission denied")]

/-- The f-string message of the row-level PermissionError response. -/
def permissionDeniedMessage (filter_id : Nat) : String :=
  "Access to filter id - " ++ toString filter_id ++ " is prohibited."

/-- The body returned when the service raises PermissionError for a
specific filter id. -/
def permissionDeniedBody (filter_id : Nat) : Json :=
  .obj [("type", .str "Permission Denied"),
        ("message", .str (permissionDeniedMessage filter_id))]

/-- The generic bad-request body: type "Bad request error", message
"Invalid request data". -/
def badRequestBody : Json :=
  .obj [("type", .str "Bad request error"), ("message", .str "Invalid request data")]

structure HttpResponse where
  body : Json
  status : Nat
deriving Repr

/-- What a handler invocation produces: an HTTP response, or an
exception propagating out of the handler. -/
inductive Outcome where
  | response (r : HttpResponse)
  | raised (e : Exc)
deriving Repr

/-- A collaborator invocation, recorded in order of occurrence. -/
inductive CallEvent where
  | schemaLoad (arg : Json)
  | schemaDump (arg : Json)
  | getAllFilters
  | getUserFilters
  | getFilterById (filter_id : Nat)
  | createFilter (data : Json)
  | updateFilter (filter_id : Nat) (data : Json)
  | markInactive (filter_id : Nat)
deriving Repr

/-- An argument passed to current_app.logger.warning. -/
inductive LogEntry where
  | exc (e : Exc)
  | json (j : Json)
deriving Repr

structure HandlerResult where
  outcome : Outcome
  log : List LogEntry
  calls : List CallEvent
deriving Repr

/-- The collaborators of the resource layer, as observed by one request:
the role check, the request body, the schema and the six FilterService
operations.  Each fallible collaborator either returns a value or raises
an exception. -/
structure Env where
  has_role : Except Exc Bool
  request_json : Json
  schema_load : Json → Except Exc Json
  schema_dump : Json → Json
  get_all_filters : Except Exc Json
  get_user_filters : Except Exc Json
  get_filter_by_id : Nat → Except Exc Json
  create_filter : Json → Except Exc Json
  update_filter : Nat → Json → Except Exc Json
  mark_inactive : Nat → Except Exc Unit

/-- The single except clause of FilterResource.get, UsersFilterList.get:
`except Exception as unexpected_error` logs the exception and re-raises
it; a BaseException-only exception propagates uncaught and unlogged. -/
def collection_except (e : Exc) (calls : List CallEvent) : HandlerResult :=
  if e.isException then ⟨.raised e, [.exc e], calls⟩
  else ⟨.raised e, [], calls⟩

/-- FilterResource.get — handler body of GET /filter.  Role check, then
FilterService.get_all_filters returned verbatim with 200; otherwise the
403 authorization-error body. -/
def FilterResource.get (env : Env) : HandlerResult :=
  match env.has_role with
  | .ok true =>
      match env.get_all_filters with
      | .ok response =>
          ⟨.response ⟨response, HTTPStatus.OK⟩, [], [.getAllFilters]⟩
      | .error e => collection_except e [.getAllFilters]
  | .ok false =>
      ⟨.response ⟨authorizationErrorBody, HTTPStatus.FORBIDDEN⟩, [], []⟩
  | .error e => collection_except e []

/-- The except chain of FilterResource.post, in clause order:
`except ValidationError` logs it and returns the generic 400 body;
`except Exception` logs and re-raises; BaseException-only exceptions
propagate uncaught. -/
def post_except (e : Exc) (calls : List CallEvent) : HandlerResult :=
  match e with
  | .validationError d =>
      ⟨.response ⟨badRequestBody, BAD_REQUEST⟩, [.exc (.validationError d)], calls⟩
  | _ =>
      if e.isException then ⟨.raised e, [.exc e], calls⟩
      else ⟨.raised e, [], calls⟩

/-- FilterResource.post — handler body of POST /filter.  Role check,
schema load of the request body, FilterService.create_filter, created
record returned verbatim with 201. -/
def FilterResource.post (env : Env) : HandlerResult :=
  match env.has_role with
  | .ok true =>
      match env.schema_load env.request_json with
      | .ok filter_data =>
          match env.create_filter filter_data with
          | .ok response =>
              ⟨.response ⟨response, HTTPStatus.CREATED⟩, [],
               [.schemaLoad env.request_json, .createFilter filter_data]⟩
          | .error e =>
              post_except e [.schemaLoad env.request_json, .createFilter filter_data]
      | .error e => post_except e [.schemaLoad env.request_json]
  | .ok false =>
      ⟨.response ⟨authorizationErrorBody, HTTPStatus.FORBIDDEN⟩, [], []⟩
  | .error e => post_except e []

/-- UsersFilterList.get — handler body of GET /filter/user.  Role check,
then FilterService.get_user_filters returned verbatim with 200. -/
def UsersFilterList.get (env : Env) : HandlerResult :=
  match env.has_role with
  | .ok true =>
      match env.get_user_filters with
      | .ok response =>
          ⟨.response ⟨response, HTTPStatus.OK⟩, [], [.getUserFilters]⟩
      | .error e => collection_except e [.getUserFilters]
  | .ok false =>
      ⟨.response ⟨authorizationErrorBody, HTTPStatus.FORBIDDEN⟩, [], []⟩
  | .error e => collection_except e []

/-- The except chain of FilterResourceById.get and .delete, in clause
order: `except PermissionError` logs it and returns the id-specific 403
body; `except BusinessException` logs err.error and returns it with the
service status code; `except Exception` logs and re-raises;
BaseException-only exceptions propagate uncaught. -/
def byId_except (filter_id : Nat) (e : Exc) (calls : List CallEvent) : HandlerResult :=
  match e with
  | .permissionError =>
      ⟨.response ⟨permissionDeniedBody filter_id, HTTPStatus.FORBIDDEN⟩,
       [.exc .permissionError], calls⟩
  | .businessException error status_code =>
      ⟨.response ⟨error, status_code⟩, [.json error], calls⟩
  | _ =>
      if e.isException then ⟨.raised e, [.exc e], calls⟩
      else ⟨.raised e, [], calls⟩

/-- FilterResourceById.get — handler body of GET /filter/(id).  Role
check, FilterService.get_filter_by_id, result dumped through the schema
and returned with 200. -/
def FilterResourceById.get (env : Env) (filter_id : Nat) : HandlerResult :=
  match env.has_role with
  | .ok true =>
      match env.get_filter_by_id filter_id with
      | .ok filter_result =>
          ⟨.response ⟨env.schema_dump filter_result, HTTPStatus.OK⟩, [],
           [.getFilterById filter_id, .schemaDump filter_result]⟩
      | .error e => byId_except filter_id e [.getFilterById filter_id]
  | .ok false =>
      ⟨.response ⟨authorizationErrorBody, HTTPStatus.FORBIDDEN⟩, [], []⟩
  | .error e => byId_except filter_id e []

/-- The except chain of FilterResourceById.put, in clause order:
`except PermissionError` as for byId_except; `except BusinessException`
logs err (the exception itself, not err.error) and returns err.error
with the service status; `except BaseException` logs the generic
response then the exception and returns the generic 400 body — so every
remaining exception, Exception subclass or not, is caught. -/
def put_except (filter_id : Nat) (e : Exc) (calls : List CallEvent) : HandlerResult :=
  match e with
  | .permissionError =>
      ⟨.response ⟨permissionDeniedBody filter_id, HTTPStatus.FORBIDDEN⟩,
       [.exc .permissionError], calls⟩
  | .businessException error status_code =>
      ⟨.response ⟨error, status_code⟩, [.exc (.businessException error status_code)], calls⟩
  | _ =>
      ⟨.response ⟨badRequestBody, HTTPStatus.BAD_REQUEST⟩,
       [.json badRequestBody, .exc e], calls⟩

/-- FilterResourceById.put — handler body of PUT /filter/(id).  Role
check, schema load, FilterService.update_filter, result dumped through
the schema and returned with 200. -/
def FilterResourceById.put (env : Env) (filter_id : Nat) : HandlerResult :=
  match env.has_role with
  | .ok true =>
      match env.schema_load env.request_json with
      | .ok filter_data =>
          match env.update_filter filter_id filter_data with
          | .ok filter_result =>
              ⟨.response ⟨env.schema_dump filter_result, HTTPStatus.OK⟩, [],
               [.schemaLoad env.request_json, .updateFilter filter_id filter_data,
                .schemaDump filter_result]⟩
          | .error e =>
              put_except filter_id e
                [.schemaLoad env.request_json, .updateFilter filter_id filter_data]
      | .error e => put_except filter_id e [.schemaLoad env.request_json]
  | .ok false =>
      ⟨.response ⟨authorizationErrorBody, HTTPStatus.FORBIDDEN⟩, [], []⟩
  | .error e => put_except filter_id e []

/-- FilterResourceById.delete — handler body of DELETE /filter/(id).
Role check, FilterService.mark_inactive, then the literal string
"Deleted" with 200. -/
def FilterResourceById.delete (env : Env) (filter_id : Nat) : HandlerResult :=
  match env.has_role with
  | .ok true =>
      match env.mark_inactive filter_id with
      | .ok _ =>
          ⟨.response ⟨.str "Deleted", HTTPStatus.OK⟩, [], [.markInactive filter_id]⟩
      | .error e => byId_except filter_id e [.markInactive filter_id]
  | .ok false =>
      ⟨.response ⟨authorizationErrorBody, HTTPStatus.FORBIDDEN⟩, [], []⟩
  | .error e => byId_except filter_id e []

/-! Concrete environments used as evidence inputs. -/

/-- An environment in which the caller holds the reviewer role and every
collaborator succeeds. -/
def okEnv : Env where
  has_role := .ok true
  request_json := .obj [("name", .str "Test")]
  schema_load := fun j => .ok j
  schema_dump := fun j => .arr [j]
  get_all_filters := .ok (.arr [])
  get_user_filters := .ok (.arr [.str "mine"])
  get_filter_by_id := fun n => .ok (.num (n : Int))
  create_filter := fun d => .ok (.obj [("id", .num 1), ("data", d)])
  update_filter := fun n d => .ok (.obj [("id", .num (n : Int)), ("data", d)])
  mark_inactive := fun _ => .ok ()

/-- okEnv with the reviewer role absent. -/
def denyEnv : Env := { okEnv with has_role := .ok false }

/-- okEnv with every per-id service operation raising PermissionError. -/
def permEnv : Env :=
  { okEnv with
    get_filter_by_id := fun _ => .error .permissionError
    update_filter := fun _ _ => .error .permissionError
    mark_inactive := fun _ => .error .permissionError }

/-- The BusinessException raised by every service call of bizEnv. -/
def bizExc : Exc := .businessException (.str "boom") 418

/-- okEnv with every service operation raising bizExc. -/
def bizEnv : Env :=
  { okEnv with
    get_all_filters := .error bizExc
    get_user_filters := .error bizExc
    get_filter_by_id := fun _ => .error bizExc
    create_filter := fun _ => .error bizExc
    update_filter := fun _ _ => .error bizExc
    mark_inactive := fun _ => .error bizExc }

/-- okEnv with every service operation raising an unclassified Exception
subclass. -/
def unexpEnv : Env :=
  { okEnv with
    get_all_filters := .error (.other true)
    get_user_filters := .error (.other true)
    get_filter_by_id := fun _ => .error (.other true)
    create_filter := fun _ => .error (.other true)
    update_filter := fun _ _ => .error (.other true)
    mark_inactive := fun _ => .error (.other true) }

/-- okEnv with schema load raising a ValidationError. -/
def valEnv : Env :=
  { okEnv with schema_load := fun _ => .error (.validationError "name is required") }

/-- okEnv whose schema dump is constantly null while get_all_filters
returns a distinct value: separates returning the raw service result
from returning its schema dump. -/
def dumpEnv : Env :=
  { okEnv with
    get_all_filters := .ok (.str "x")
    schema_dump := fun _ => .null }

/-- C1: On every endpoint, a caller without the reviewer role gets 403
with the body of type "Authorization error" and message
"Permission denied", whatever the request payload and filter id. -/
theorem c1_missing_role_forbidden (env : Env) (filter_id : Nat)
    (h : env.has_role = .ok false) :
    (FilterResource.get env).outcome
      = .response ⟨authorizationErrorBody, 403⟩ ∧
    (FilterResource.post env).outcome
      = .response ⟨authorizationErrorBody, 403⟩ ∧
    (UsersFilterList.get env).outcome
      = .response ⟨authorizationErrorBody, 403⟩ ∧
    (FilterResourceById.get env filter_id).outcome
      = .response ⟨authorizationErrorBody, 403⟩ ∧
    (FilterResourceById.put env filter_id).outcome
      = .response ⟨authorizationErrorBody, 403⟩ ∧
    (FilterResourceById.delete env filter_id).outcome
      = .response ⟨authorizationErrorBody, 403⟩ := by
  simp [FilterResource.get, FilterResource.post, UsersFilterList.get,
    FilterResourceById.get, FilterResourceById.put, FilterResourceById.delete,
    h, HTTPStatus.FORBIDDEN]

/-- C1 witness: the role-gate theorem applied to denyEnv and filter id 7. -/
theorem c1_missing_role_forbidden_witness :
    (FilterResource.get denyEnv).outcome
      = .response ⟨authorizationErrorBody, 403⟩ ∧
    (FilterResource.post denyEnv).outcome
      = .response ⟨authorizationErrorBody, 403⟩ ∧
    (UsersFilterList.get denyEnv).outcome
      = .response ⟨authorizationErrorBody, 403⟩ ∧
    (FilterResourceById.get denyEnv 7).outcome
      = .response ⟨authorizationErrorBody, 403⟩ ∧
    (FilterResourceById.put denyEnv 7).outcome
      = .response ⟨authorizationErrorBody, 403⟩ ∧
    (FilterResourceById.delete denyEnv 7).outcome
      = .response ⟨authorizationErrorBody, 403⟩ :=
  c1_missing_role_forbidden denyEnv 7 rfl

/-- C2: On GET, PUT and DELETE by id, a PermissionError from the service
call yields 403 with the id-specific body, whose message contains the
literal filter id. -/
theorem c2_permission_fault_forbidden (env : Env) (filter_id : Nat) (data : Json)
    (hr : env.has_role = .ok true)
    (hg : env.get_filter_by_id filter_id = .error .permissionError)
    (hl : env.schema_load env.request_json = .ok data)
    (hu : env.update_filter filter_id data = .error .permissionError)
    (hm : env.mark_inactive filter_id = .error .permissionError) :
    (FilterResourceById.get env filter_id).outcome
      = .response ⟨permissionDeniedBody filter_id, 403⟩ ∧
    (FilterResourceById.put env filter_id).outcome
      = .response ⟨permissionDeniedBody filter_id, 403⟩ ∧
    (FilterResourceById.delete env filter_id).outcome
      = .response ⟨permissionDeniedBody filter_id, 403⟩ ∧
    ∃ s t, permissionDeniedMessage filter_id = s ++ toString filter_id ++ t := by
  refine ⟨?_, ?_, ?_, "Access to filter id - ", " is prohibited.", rfl⟩
  · simp [FilterResourceById.get, hr, hg, byId_except, HTTPStatus.FORBIDDEN]
  · simp [FilterResourceById.put, hr, hl, hu, put_except, HTTPStatus.FORBIDDEN]
  · simp [FilterResourceById.delete, hr, hm, byId_except, HTTPStatus.FORBIDDEN]

/-- C2 witness: the permission-fault theorem applied to permEnv and
filter id 42. -/
theorem c2_permission_fault_forbidden_witness :
    (FilterResourceById.get permEnv 42).outcome
      = .response ⟨permissionDeniedBody 42, 403⟩ ∧
    (FilterResourceById.put permEnv 42).outcome
      = .response ⟨permissionDeniedBody 42, 403⟩ ∧
    (FilterResourceById.delete permEnv 42).outcome
      = .response ⟨permissionDeniedBody 42, 403⟩ ∧
    ∃ s t, permissionDeniedMessage 42 = s ++ toString 42 ++ t :=
  c2_permission_fault_forbidden permEnv 42 permEnv.request_json rfl rfl rfl rfl rfl

/-- C4: On POST with the reviewer role, a ValidationError from schema
load yields the fixed 400 bad-request body; the validation detail is
logged and the response does not depend on it (the detail is never
echoed to the caller). -/
theorem c4_validation_fault_generic_400 (env : Env) (d : String)
    (hr : env.has_role = .ok true)
    (hl : env.schema_load env.request_json = .error (.validationError d)) :
    (FilterResource.post env).outcome = .response ⟨badRequestBody, BAD_REQUEST⟩ ∧
    (FilterResource.post env).log = [.exc (.validationError d)] ∧
    ∀ (env' : Env) (d' : String), env'.has_role = .ok true →
      env'.schema_load env'.request_json = .error (.validationError d') →
      (FilterResource.post env).outcome = (FilterResource.post env').outcome := by
  refine ⟨?_, ?_, ?_⟩
  · simp [FilterResource.post, hr, hl, post_except]
  · simp [FilterResource.post, hr, hl, post_except]
  · intro env' d' hr' hl'
    simp [FilterResource.post, hr, hl, hr', hl', post_except]

/-- C4 witness: the validation-fault theorem applied to valEnv and its
validation detail. -/
theorem c4_validation_fault_generic_400_witness :
    (FilterResource.post valEnv).outcome = .response ⟨badRequestBody, BAD_REQUEST⟩ ∧
    (FilterResource.post valEnv).log = [.exc (.validationError "name is required")] ∧
    ∀ (env' : Env) (d' : String), env'.has_role = .ok true →
      env'.schema_load env'.request_json = .error (.validationError d') →
      (FilterResource.post valEnv).outcome = (FilterResource.post env').outcome :=
  c4_validation_fault_generic_400 valEnv "name is required" rfl rfl

/-- C7: On POST with the reviewer role and a body passing schema
validation, the handler returns the record produced by
FilterService.create_filter with status 201. -/
theorem c7_post_created (env : Env) (data record : Json)
    (hr : env.has_role = .ok true)
    (hl : env.schema_load env.request_json = .ok data)
    (hc : env.create_filter data = .ok record) :
    (FilterResource.post env).outcome = .response ⟨record, 201⟩ := by
  simp [FilterResource.post, hr, hl, hc, HTTPStatus.CREATED]

/-- C7 witness: the creation theorem applied to okEnv. -/
theorem c7_post_created_witness :
    (FilterResource.post okEnv).outcome
      = .response ⟨.obj [("id", .num 1), ("data", .obj [("name", .str "Test")])], 201⟩ :=
  c7_post_created okEnv (.obj [("name", .str "Test")])
    (.obj [("id", .num 1), ("data", .obj [("name", .str "Test")])]) rfl rfl rfl

/-- C8: On DELETE with the reviewer role, when
FilterService.mark_inactive returns without fault the handler returns
the literal string "Deleted" with status 200. -/
theorem c8_delete_deleted (env : Env) (filter_id : Nat)
    (hr : env.has_role = .ok true)
    (hm : env.mark_inactive filter_id = .ok ()) :
    (FilterResourceById.delete env filter_id).outcome
      = .response ⟨.str "Deleted", 200⟩ := by
  simp [FilterResourceById.delete, hr, hm, HTTPStatus.OK]

/-- C8 witness: the deletion theorem applied to okEnv and filter id 5. -/
theorem c8_delete_deleted_witness :
    (FilterResourceById.delete okEnv 5).outcome
      = .response ⟨.str "Deleted", 200⟩ :=
  c8_delete_deleted okEnv 5 rfl rfl

/-- C9: A request without the reviewer role performs no collaborator
call on any endpoint: no schema load or dump and no service operation,
hence no state change in the persistence layer. -/
theorem c9_denied_request_no_calls (env : Env) (filter_id : Nat)
    (h : env.has_role = .ok false) :
    (FilterResource.get env).calls = [] ∧
    (FilterResource.post env).calls = [] ∧
    (UsersFilterList.get env).calls = [] ∧
    (FilterResourceById.get env filter_id).calls = [] ∧
    (FilterResourceById.put env filter_id).calls = [] ∧
    (FilterResourceById.delete env filter_id).calls = [] := by
  simp [FilterResource.get, FilterResource.post, UsersFilterList.get,
    FilterResourceById.get, FilterResourceById.put, FilterResourceById.delete, h]

/-- C9 witness: the no-calls theorem applied to denyEnv and filter id 3. -/
theorem c9_denied_request_no_calls_witness :
    (FilterResource.get denyEnv).calls = [] ∧
    (FilterResource.post denyEnv).calls = [] ∧
    (UsersFilterList.get denyEnv).calls = [] ∧
    (FilterResourceById.get denyEnv 3).calls = [] ∧
    (FilterResourceById.put denyEnv 3).calls = [] ∧
    (FilterResourceById.delete denyEnv 3).calls = [] :=
  c9_denied_request_no_calls denyEnv 3 rfl

/-- C3 counterexample: on GET /filter, a BusinessException from
FilterService.get_all_filters is re-raised out of the handler, not
returned as the service-defined error body with the service status
code, refuting the claim for that endpoint at this concrete input. -/
theorem c3_counterexample_collection_reraises :
    (FilterResource.get bizEnv).outcome
      = .raised (.businessException (.str "boom") 418) ∧
    (FilterResource.get bizEnv).outcome ≠ .response ⟨.str "boom", 418⟩ :=
  ⟨rfl, fun h => nomatch h⟩

/-- C3 amended: only the by-id endpoints (GET, PUT, DELETE on
/filter/(id)) catch BusinessException and return its error body with the
service status code; on GET /filter, POST /filter and GET /filter/user a
BusinessException is logged and re-raised like any other Exception. -/
theorem c3_amended_business_exception_handling (env : Env) (filter_id : Nat)
    (b data : Json) (s : Nat)
    (hr : env.has_role = .ok true)
    (hg : env.get_filter_by_id filter_id = .error (.businessException b s))
    (hl : env.schema_load env.request_json = .ok data)
    (hu : env.update_filter filter_id data = .error (.businessException b s))
    (hm : env.mark_inactive filter_id = .error (.businessException b s))
    (ha : env.get_all_filters = .error (.businessException b s))
    (hz : env.get_user_filters = .error (.businessException b s))
    (hc : env.create_filter data = .error (.businessException b s)) :
    (FilterResourceById.get env filter_id).outcome = .response ⟨b, s⟩ ∧
    (FilterResourceById.put env filter_id).outcome = .response ⟨b, s⟩ ∧
    (FilterResourceById.delete env filter_id).outcome = .response ⟨b, s⟩ ∧
    ((FilterResource.get env).outcome = .raised (.businessException b s) ∧
      (FilterResource.get env).log = [.exc (.businessException b s)]) ∧
    ((UsersFilterList.get env).outcome = .raised (.businessException b s) ∧
      (UsersFilterList.get env).log = [.exc (.businessException b s)]) ∧
    ((FilterResource.post env).outcome = .raised (.businessException b s) ∧
      (FilterResource.post env).log = [.exc (.businessException b s)]) := by
  simp [FilterResource.get, FilterResource.post, UsersFilterList.get,
    FilterResourceById.get, FilterResourceById.put, FilterResourceById.delete,
    collection_except, post_except, byId_except, put_except, Exc.isException,
    hr, hg, hl, hu, hm, ha, hz, hc]

/-- C3 amended witness: the business-exception theorem applied to bizEnv
and filter id 9. -/
theorem c3_amended_business_exception_handling_witness :
    (FilterResourceById.get bizEnv 9).outcome = .response ⟨.str "boom", 418⟩ ∧
    (FilterResourceById.put bizEnv 9).outcome = .response ⟨.str "boom", 418⟩ ∧
    (FilterResourceById.delete bizEnv 9).outcome = .response ⟨.str "boom", 418⟩ ∧
    ((FilterResource.get bizEnv).outcome
        = .raised (.businessException (.str "boom") 418) ∧
      (FilterResource.get bizEnv).log
        = [.exc (.businessException (.str "boom") 418)]) ∧
    ((UsersFilterList.get bizEnv).outcome
        = .raised (.businessException (.str "boom") 418) ∧
      (UsersFilterList.get bizEnv).log
        = [.exc (.businessException (.str "boom") 418)]) ∧
    ((FilterResource.post bizEnv).outcome
        = .raised (.businessException (.str "boom") 418) ∧
      (FilterResource.post bizEnv).log
        = [.exc (.businessException (.str "boom") 418)]) :=
  c3_amended_business_exception_handling bizEnv 9 (.str "boom")
    bizEnv.request_json 418 rfl rfl rfl rfl rfl rfl rfl rfl

/-- C5: on the five non-PUT endpoints an unclassified Exception (not a
permission, business-rule or validation fault) is logged and re-raised
unchanged, while PUT catches it and returns the generic 400 body. -/
theorem c5_unexpected_fault_policy (env : Env) (filter_id : Nat)
    (data : Json) (e : Exc)
    (he : e.isException = true)
    (hp : e ≠ .permissionError)
    (hb : ∀ b s, e ≠ .businessException b s)
    (hv : ∀ d, e ≠ .validationError d)
    (hr : env.has_role = .ok true)
    (ha : env.get_all_filters = .error e)
    (hz : env.get_user_filters = .error e)
    (hl : env.schema_load env.request_json = .ok data)
    (hc : env.create_filter data = .error e)
    (hg : env.get_filter_by_id filter_id = .error e)
    (hm : env.mark_inactive filter_id = .error e)
    (hu : env.update_filter filter_id data = .error e) :
    ((FilterResource.get env).outcome = .raised e ∧
      (FilterResource.get env).log = [.exc e]) ∧
    ((FilterResource.post env).outcome = .raised e ∧
      (FilterResource.post env).log = [.exc e]) ∧
    ((UsersFilterList.get env).outcome = .raised e ∧
      (UsersFilterList.get env).log = [.exc e]) ∧
    ((FilterResourceById.get env filter_id).outcome = .raised e ∧
      (FilterResourceById.get env filter_id).log = [.exc e]) ∧
    ((FilterResourceById.delete env filter_id).outcome = .raised e ∧
      (FilterResourceById.delete env filter_id).log = [.exc e]) ∧
    (FilterResourceById.put env filter_id).outcome
      = .response ⟨badRequestBody, 400⟩ := by
  obtain rfl : e = .other true := by
    cases e with
    | permissionError => exact absurd rfl hp
    | businessException b s => exact absurd rfl (hb b s)
    | validationError d => exact absurd rfl (hv d)
    | other bb =>
      cases bb with
      | false => simp [Exc.isException] at he
      | true => rfl
  simp [FilterResource.get, FilterResource.post, UsersFilterList.get,
    FilterResourceById.get, FilterResourceById.delete, FilterResourceById.put,
    collection_except, post_except, byId_except, put_except, Exc.isException,
    hr, ha, hz, hl, hc, hg, hm, hu, HTTPStatus.BAD_REQUEST]

/-- C5 witness: the unexpected-fault theorem applied to unexpEnv and
filter id 11. -/
theorem c5_unexpected_fault_policy_witness :
    ((FilterResource.get unexpEnv).outcome = .raised (.other true) ∧
      (FilterResource.get unexpEnv).log = [.exc (.other true)]) ∧
    ((FilterResource.post unexpEnv).outcome = .raised (.other true) ∧
      (FilterResource.post unexpEnv).log = [.exc (.other true)]) ∧
    ((UsersFilterList.get unexpEnv).outcome = .raised (.other true) ∧
      (UsersFilterList.get unexpEnv).log = [.exc (.other true)]) ∧
    ((FilterResourceById.get unexpEnv 11).outcome = .raised (.other true) ∧
      (FilterResourceById.get unexpEnv 11).log = [.exc (.other true)]) ∧
    ((FilterResourceById.delete unexpEnv 11).outcome = .raised (.other true) ∧
      (FilterResourceById.delete unexpEnv 11).log = [.exc (.other true)]) ∧
    (FilterResourceById.put unexpEnv 11).outcome
      = .response ⟨badRequestBody, 400⟩ :=
  c5_unexpected_fault_policy unexpEnv 11 unexpEnv.request_json (.other true)
    rfl (fun h => nomatch h) (fun _ _ h => nomatch h) (fun _ h => nomatch h)
    rfl rfl rfl rfl rfl rfl rfl rfl

/-- C6 counterexample: an authorized, successful GET /filter returns
the raw service result as the body; it is not produced by the schema
dump, which maps that result to a different value in dumpEnv. -/
theorem c6_counterexample_collection_body_not_dumped :
    dumpEnv.has_role = .ok true ∧
    dumpEnv.get_all_filters = .ok (.str "x") ∧
    (FilterResource.get dumpEnv).outcome = .response ⟨.str "x", 200⟩ ∧
    dumpEnv.schema_dump (.str "x") = .null ∧
    (Json.str "x") ≠ .null :=
  ⟨rfl, rfl, rfl, rfl, fun h => nomatch h⟩

/-- C6 amended: on success the control flow is role check, then schema
load (POST and PUT only), then service call, then schema dump on
GET /filter/(id) and PUT /filter/(id) only; GET /filter,
GET /filter/user and POST /filter return the service result verbatim
without a dump, and DELETE returns the literal string "Deleted". -/
theorem c6_amended_success_flow (env : Env) (filter_id : Nat)
    (data v_all v_user v_created v_id v_upd : Json)
    (hr : env.has_role = .ok true)
    (ha : env.get_all_filters = .ok v_all)
    (hz : env.get_user_filters = .ok v_user)
    (hl : env.schema_load env.request_json = .ok data)
    (hc : env.create_filter data = .ok v_created)
    (hg : env.get_filter_by_id filter_id = .ok v_id)
    (hu : env.update_filter filter_id data = .ok v_upd)
    (hm : env.mark_inactive filter_id = .ok ()) :
    FilterResource.get env
      = ⟨.response ⟨v_all, 200⟩, [], [.getAllFilters]⟩ ∧
    UsersFilterList.get env
      = ⟨.response ⟨v_user, 200⟩, [], [.getUserFilters]⟩ ∧
    FilterResource.post env
      = ⟨.response ⟨v_created, 201⟩, [],
         [.schemaLoad env.request_json, .createFilter data]⟩ ∧
    FilterResourceById.get env filter_id
      = ⟨.response ⟨env.schema_dump v_id, 200⟩, [],
         [.getFilterById filter_id, .schemaDump v_id]⟩ ∧
    FilterResourceById.put env filter_id
      = ⟨.response ⟨env.schema_dump v_upd, 200⟩, [],
         [.schemaLoad env.request_json, .updateFilter filter_id data,
          .schemaDump v_upd]⟩ ∧
    FilterResourceById.delete env filter_id
      = ⟨.response ⟨.str "Deleted", 200⟩, [], [.markInactive filter_id]⟩ := by
  simp [FilterResource.get, FilterResource.post, UsersFilterList.get,
    FilterResourceById.get, FilterResourceById.put, FilterResourceById.delete,
    hr, ha, hz, hl, hc, hg, hu, hm, HTTPStatus.OK, HTTPStatus.CREATED]

/-- C6 amended witness: the success-flow theorem applied to okEnv and
filter id 6. -/
theorem c6_amended_success_flow_witness :
    FilterResource.get okEnv
      = ⟨.response ⟨.arr [], 200⟩, [], [.getAllFilters]⟩ ∧
    UsersFilterList.get okEnv
      = ⟨.response ⟨.arr [.str "mine"], 200⟩, [], [.getUserFilters]⟩ ∧
    FilterResource.post okEnv
      = ⟨.response ⟨.obj [("id", .num 1), ("data", .obj [("name", .str "Test")])], 201⟩, [],
         [.schemaLoad (.obj [("name", .str "Test")]),
          .createFilter (.obj [("name", .str "Test")])]⟩ ∧
    FilterResourceById.get okEnv 6
      = ⟨.response ⟨.arr [.num 6], 200⟩, [], [.getFilterById 6, .schemaDump (.num 6)]⟩ ∧
    FilterResourceById.put okEnv 6
      = ⟨.response ⟨.arr [.obj [("id", .num 6), ("data", .obj [("name", .str "Test")])]], 200⟩, [],
         [.schemaLoad (.obj [("name", .str "Test")]),
          .updateFilter 6 (.obj [("name", .str "Test")]),
          .schemaDump (.obj [("id", .num 6), ("data", .obj [("name", .str "Test")])])]⟩ ∧
    FilterResourceById.delete okEnv 6
      = ⟨.response ⟨.str "Deleted", 200⟩, [], [.markInactive 6]⟩ :=
  c6_amended_success_flow okEnv 6 (.obj [("name", .str "Test")]) (.arr [])
    (.arr [.str "mine"]) (.obj [("id", .num 1), ("data", .obj [("name", .str "Test")])])
    (.num 6) (.obj [("id", .num 6), ("data", .obj [("name", .str "Test")])])
    rfl rfl rfl rfl rfl rfl rfl rfl

/-- C10: the PUT handler is total: for every environment — including
one whose role check or schema raises, and whatever exception class any
collaborator raises — it returns an HTTP response, never an exception,
and that response is the 200 success dump, the 403 authorization body,
the 403 id-specific permission body, a service-defined business-fault
body, or the generic 400 body. -/
theorem c10_put_handler_total (env : Env) (filter_id : Nat) :
    ∃ r, (FilterResourceById.put env filter_id).outcome = .response r ∧
      ((∃ data res, env.schema_load env.request_json = .ok data ∧
          env.update_filter filter_id data = .ok res ∧
          r = ⟨env.schema_dump res, 200⟩) ∨
       r = ⟨authorizationErrorBody, 403⟩ ∨
       r = ⟨permissionDeniedBody filter_id, 403⟩ ∨
       (∃ b s, r = ⟨b, s⟩ ∧
         (env.has_role = .error (.businessException b s) ∨
          env.schema_load env.request_json = .error (.businessException b s) ∨
          ∃ data, env.schema_load env.request_json = .ok data ∧
            env.update_filter filter_id data = .error (.businessException b s))) ∨
       r = ⟨badRequestBody, 400⟩) := by
  cases hhr : env.has_role with
  | error e =>
    cases e with
    | permissionError =>
      exact ⟨⟨permissionDeniedBody filter_id, 403⟩,
        by simp [FilterResourceById.put, hhr, put_except, HTTPStatus.FORBIDDEN],
        Or.inr (Or.inr (Or.inl rfl))⟩
    | businessException b s =>
      exact ⟨⟨b, s⟩,
        by simp [FilterResourceById.put, hhr, put_except],
        Or.inr (Or.inr (Or.inr (Or.inl ⟨b, s, rfl, Or.inl rfl⟩)))⟩
    | validationError d =>
      exact ⟨⟨badRequestBody, 400⟩,
        by simp [FilterResourceById.put, hhr, put_except, HTTPStatus.BAD_REQUEST],
        Or.inr (Or.inr (Or.inr (Or.inr rfl)))⟩
    | other bb =>
      exact ⟨⟨badRequestBody, 400⟩,
        by simp [FilterResourceById.put, hhr, put_except, HTTPStatus.BAD_REQUEST],
        Or.inr (Or.inr (Or.inr (Or.inr rfl)))⟩
  | ok b =>
    cases b with
    | false =>
      exact ⟨⟨authorizationErrorBody, 403⟩,
        by simp [FilterResourceById.put, hhr, HTTPStatus.FORBIDDEN],
        Or.inr (Or.inl rfl)⟩
    | true =>
      cases hl : env.schema_load env.request_json with
      | error e =>
        cases e with
        | permissionError =>
          exact ⟨⟨permissionDeniedBody filter_id, 403⟩,
            by simp [FilterResourceById.put, hhr, hl, put_except, HTTPStatus.FORBIDDEN],
            Or.inr (Or.inr (Or.inl rfl))⟩
        | businessException b s =>
          exact ⟨⟨b, s⟩,
            by simp [FilterResourceById.put, hhr, hl, put_except],
            Or.inr (Or.inr (Or.inr (Or.inl ⟨b, s, rfl, Or.inr (Or.inl rfl)⟩)))⟩
        | validationError d =>
          exact ⟨⟨badRequestBody, 400⟩,
            by simp [FilterResourceById.put, hhr, hl, put_except, HTTPStatus.BAD_REQUEST],
            Or.inr (Or.inr (Or.inr (Or.inr rfl)))⟩
        | other bb =>
          exact ⟨⟨badRequestBody, 400⟩,
            by simp [FilterResourceById.put, hhr, hl, put_except, HTTPStatus.BAD_REQUEST],
            Or.inr (Or.inr (Or.inr (Or.inr rfl)))⟩
      | ok data =>
        cases hu : env.update_filter filter_id data with
        | error e =>
          cases e with
          | permissionError =>
            exact ⟨⟨permissionDeniedBody filter_id, 403⟩,
              by simp [FilterResourceById.put, hhr, hl, hu, put_except, HTTPStatus.FORBIDDEN],
              Or.inr (Or.inr (Or.inl rfl))⟩
          | businessException b s =>
            exact ⟨⟨b, s⟩,
              by simp [FilterResourceById.put, hhr, hl, hu, put_except],
              Or.inr (Or.inr (Or.inr (Or.inl ⟨b, s, rfl,
                Or.inr (Or.inr ⟨data, rfl, hu⟩)⟩)))⟩
          | validationError d =>
            exact ⟨⟨badRequestBody, 400⟩,
              by simp [FilterResourceById.put, hhr, hl, hu, put_except, HTTPStatus.BAD_REQUEST],
              Or.inr (Or.inr (Or.inr (Or.inr rfl)))⟩
          | other bb =>
            exact ⟨⟨badRequestBody, 400⟩,
              by simp [FilterResourceById.put, hhr, hl, hu, put_except, HTTPStatus.BAD_REQUEST],
              Or.inr (Or.inr (Or.inr (Or.inr rfl)))⟩
        | ok res =>
          exact ⟨⟨env.schema_dump res, 200⟩,
            by simp [FilterResourceById.put, hhr, hl, hu, HTTPStatus.OK],
            Or.inl ⟨data, res, rfl, hu, rfl⟩⟩
